import Mathlib

/-!
# Verification of the zygo-automation synchronization core

This file is a shallow embedding of the cross-process file-handshake core of
the `zygo_automation` package (`automation.py`, `zygo.py`, `bmc.py`,
`irisao.py`) together with proofs of the behavioural properties claimed of it.

Modelling conventions:

* A file's state is `Option Nat`: `none` when the path does not exist and
  `some t` when it exists with modification time `t`.  Real mtimes are
  modelled as positive naturals; `0` is the absent sentinel produced by
  `get_last_modified` (the Python code uses the float `0.`).
* The polling loop `FileMonitor.watch` is driven by a finite trace of tick
  events: at each tick the loop either observes the watched file's current
  state or receives an external `KeyboardInterrupt`.  Effects of a callback
  on the surrounding filesystem are reflected in the externally supplied
  trace; the callback itself acts on the monitor object and may raise.
* Python exceptions are values of `Exc`; a raised exception propagates as
  `Except.error` / a `some` exception slot.  External collaborators (h5py
  parsing, the csv module's per-field string codec, NumPy's dtype cast) are
  function parameters, exactly at the interface boundary the code uses them.
-/

/-- Python exceptions that the modelled code can raise. -/
inductive Exc where
  | keyboardInterrupt
  | typeError
  | valueError
  | assertionError
  | indexError
  | fileExistsError
deriving DecidableEq, Repr

/-- The mutable state of `FileMonitor` (automation.py lines 185-203):
the last-observed modification time and the loop-continuation flag. -/
structure Monitor where
  lastModified : Nat
  continueMonitoring : Bool
deriving DecidableEq, Repr

/-- `FileMonitor.get_last_modified` (automation.py lines 228-237): if the
file exists return its mtime, otherwise the absent sentinel `0`.  It is a
total function: absence raises no error. -/
def get_last_modified : Option Nat → Nat
  | some t => t
  | none => 0

/-- `FileMonitor.__init__` (automation.py lines 191-203): record the
initial state of the watched file as the baseline mtime. -/
def initMonitor (fs : Option Nat) : Monitor :=
  { lastModified := get_last_modified fs, continueMonitoring := true }

/-- One event delivered to a poll tick of `FileMonitor.watch`: either an
observation of the watched file, or an external `KeyboardInterrupt`
arriving during the tick (stat / callback / sleep). -/
inductive TickEvent where
  | obs (fs : Option Nat)
  | interrupt
deriving DecidableEq, Repr

/-- The body of the `while self.continue_monitoring` loop of
`FileMonitor.watch` (automation.py lines 212-224), iterated over a trace of
tick events.  Returns the number of `on_new_data` invocations, the final
monitor state, and the pending exception (`some e` when the loop was left
by an exception rather than by the continuation flag or trace exhaustion).
The callback `onNew` may itself raise. -/
def watchLoop (onNew : Monitor → Except Exc Monitor) (m : Monitor) :
    List TickEvent → Nat × Monitor × Option Exc
  | [] => (0, m, none)
  | e :: rest =>
    if m.continueMonitoring then
      match e with
      | TickEvent.interrupt => (0, m, some Exc.keyboardInterrupt)
      | TickEvent.obs fs =>
        let last := get_last_modified fs
        if last ≠ m.lastModified then
          if fs.isSome then
            match onNew m with
            | Except.error exc => (0, m, some exc)
            | Except.ok m2 =>
              let r := watchLoop onNew { m2 with lastModified := last } rest
              (r.1 + 1, r.2)
          else
            watchLoop onNew { m with lastModified := last } rest
        else
          watchLoop onNew m rest
    else (0, m, none)

/-- `FileMonitor.watch` (automation.py lines 205-226): reset the
continuation flag, run the poll loop, and catch `KeyboardInterrupt`
(`try ... except KeyboardInterrupt: return`) so that only other exceptions
propagate to the caller. -/
def watch (onNew : Monitor → Except Exc Monitor) (m : Monitor)
    (events : List TickEvent) : Nat × Monitor × Option Exc :=
  let r := watchLoop onNew { m with continueMonitoring := true } events
  match r.2.2 with
  | some Exc.keyboardInterrupt => (r.1, r.2.1, none)
  | _ => r

/-- `ZygoMonitor.on_new_data` (automation.py lines 259-266): on a new
`dm_ready` file, delete it (an effect on the rendezvous directory,
reflected in the observation trace) and clear the continuation flag. -/
def zygoOnNew : Monitor → Except Exc Monitor :=
  fun m => Except.ok { m with continueMonitoring := false }

/-- If the observed mtime never differs from the monitor's baseline, the
loop fires no callback and leaves the monitor unchanged. -/
theorem watchLoop_unchanged (onNew : Monitor → Except Exc Monitor)
    (m : Monitor) (v : Option Nat) (events : List TickEvent)
    (hm : m.continueMonitoring = true)
    (hv : get_last_modified v = m.lastModified)
    (h : ∀ e ∈ events, e = TickEvent.obs v) :
    watchLoop onNew m events = (0, m, none) := by
  induction events with
  | nil => rfl
  | cons e rest ih =>
    have he : e = TickEvent.obs v := h e (List.mem_cons_self e rest)
    subst he
    have hrest : ∀ x ∈ rest, x = TickEvent.obs v :=
      fun x hx => h x (List.mem_cons_of_mem _ hx)
    have hcond : ¬ (get_last_modified v ≠ m.lastModified) := by simp [hv]
    simp only [watchLoop, hm, if_true, if_neg hcond]
    exact ih hrest

/-- Once the continuation flag is cleared, the loop exits at the next
check without firing or raising. -/
theorem watchLoop_stopped (onNew : Monitor → Except Exc Monitor)
    (m : Monitor) (events : List TickEvent)
    (hm : m.continueMonitoring = false) :
    watchLoop onNew m events = (0, m, none) := by
  cases events with
  | nil => rfl
  | cons e rest => simp [watchLoop, hm]

/-- A monitor whose continuation flag was cleared by its first callback
never fires again within the same `watch` call: the `ZygoMonitor` consumes
at most one ready signal per `watch` invocation. -/
theorem zygo_watch_fires_at_most_once (m : Monitor) (events : List TickEvent) :
    (watch zygoOnNew m events).1 ≤ 1 := by
  have key : ∀ (es : List TickEvent) (m0 : Monitor),
      (watchLoop zygoOnNew m0 es).1 ≤ 1 := by
    intro es
    induction es with
    | nil => intro m0; simp [watchLoop]
    | cons e rest ih =>
      intro m0
      by_cases hm : m0.continueMonitoring
      · cases e with
        | interrupt => simp [watchLoop, hm]
        | obs fs =>
          by_cases hch : get_last_modified fs ≠ m0.lastModified
          · by_cases hex : fs.isSome
            · simp only [watchLoop, hm, if_true, if_pos hch, hex, zygoOnNew]
              have hstop := watchLoop_stopped zygoOnNew
                { lastModified := get_last_modified fs, continueMonitoring := false }
                rest rfl
              simp [hstop]
            · simp only [watchLoop, hm, if_true, if_pos hch, hex, if_false]
              exact ih _
          · simp only [watchLoop, hm, if_true, if_neg hch]
            exact ih _
      · simp only [Bool.not_eq_true] at hm
        rw [watchLoop_stopped zygoOnNew m0 (e :: rest) hm]
        simp
  unfold watch
  have h1 := key events { m with continueMonitoring := true }
  cases hr : (watchLoop zygoOnNew { m with continueMonitoring := true } events).2.2 with
  | none => simpa [hr] using h1
  | some e => cases e <;> simpa [hr] using h1

/-- Claim C1 (counterexample): a stale `dm_ready` file that already exists
(here with mtime 5) when `zygo_dm_run` constructs its `ZygoMonitor` — i.e.
before the first iteration — does NOT make the first iteration's `watch`
return immediately: with the Responder doing nothing (the file stays
untouched), after the first poll ticks the callback has fired zero times
and the monitor is still watching (`continue_monitoring` is still true),
because `FileMonitor.__init__` recorded the stale file's mtime as the
baseline. -/
theorem claim_C1_counterexample :
    (watch zygoOnNew (initMonitor (some 5))
      [TickEvent.obs (some 5), TickEvent.obs (some 5), TickEvent.obs (some 5)]).1 = 0 ∧
    (watch zygoOnNew (initMonitor (some 5))
      [TickEvent.obs (some 5), TickEvent.obs (some 5), TickEvent.obs (some 5)]).2.1.continueMonitoring
      = true :=
  ⟨rfl, rfl⟩

/-- Claim C1 (amended): a ready-signal already present at `ZygoMonitor`
construction is baselined and ignored — while its observed mtime never
changes, the Initiator's `watch` neither fires nor returns.  Only a
ready-signal that first appears after construction (absent at
construction, observed with a real mtime σ ≠ 0 on a poll tick) makes the
wait return on that very tick, with exactly one consume, regardless of the
Responder having applied anything. -/
theorem claim_C1_amended (τ σ : Nat) (events rest : List TickEvent)
    (hstale : ∀ e ∈ events, e = TickEvent.obs (some τ)) (hσ : σ ≠ 0) :
    (watch zygoOnNew (initMonitor (some τ)) events).1 = 0 ∧
    (watch zygoOnNew (initMonitor (some τ)) events).2.1.continueMonitoring = true ∧
    watch zygoOnNew (initMonitor none) (TickEvent.obs (some σ) :: rest) =
      (1, { lastModified := σ, continueMonitoring := false }, none) := by
  have hstale2 : watchLoop zygoOnNew { lastModified := τ, continueMonitoring := true } events
      = (0, { lastModified := τ, continueMonitoring := true }, none) :=
    watchLoop_unchanged zygoOnNew _ (some τ) events rfl rfl hstale
  have hw : watch zygoOnNew (initMonitor (some τ)) events
      = (0, { lastModified := τ, continueMonitoring := true }, none) := by
    unfold watch initMonitor
    simp [get_last_modified, hstale2]
  refine ⟨by rw [hw], by rw [hw], ?_⟩
  have hfresh : watchLoop zygoOnNew { lastModified := 0, continueMonitoring := true }
      (TickEvent.obs (some σ) :: rest)
      = (1, { lastModified := σ, continueMonitoring := false }, none) := by
    have hcond : get_last_modified (some σ) ≠
        ({ lastModified := 0, continueMonitoring := true } : Monitor).lastModified := by
      simpa [get_last_modified] using hσ
    simp only [watchLoop, if_pos hcond, zygoOnNew, Option.isSome_some, if_true]
    rw [watchLoop_stopped zygoOnNew _ rest rfl]
    simp [get_last_modified]
  unfold watch initMonitor
  simp [get_last_modified, hfresh]

/-- Claim C6: a watcher constructed over a path at which a command file
already exists (mtime τ) invokes no callback for that pre-existing file:
whatever the callback is, as long as every poll tick observes the file
unchanged since construction, `watch` fires zero times and the monitor is
left exactly as constructed (still watching, baseline still τ). -/
theorem claim_C6 (onNew : Monitor → Except Exc Monitor) (τ : Nat)
    (events : List TickEvent)
    (h : ∀ e ∈ events, e = TickEvent.obs (some τ)) :
    watch onNew (initMonitor (some τ)) events = (0, initMonitor (some τ), none) := by
  have hloop : watchLoop onNew { lastModified := τ, continueMonitoring := true } events
      = (0, { lastModified := τ, continueMonitoring := true }, none) :=
    watchLoop_unchanged onNew _ (some τ) events rfl rfl h
  unfold watch initMonitor
  simp [get_last_modified, hloop]

/-- Claim C6 (witness): concrete instance with a pre-existing file of
mtime 5 observed unchanged for three ticks. -/
theorem claim_C6_witness :
    watch zygoOnNew (initMonitor (some 5))
      [TickEvent.obs (some 5), TickEvent.obs (some 5), TickEvent.obs (some 5)]
      = (0, initMonitor (some 5), none) :=
  claim_C6 zygoOnNew 5 _ (by decide)

/-- Claim C7: `get_last_modified` on an absent path returns the absent
sentinel 0 without raising (it is a total function), and for a signal file
never created — every poll tick observes absence — `hasChangedSince` never
holds: no callback fires, the baseline stays at the sentinel, and the
watcher keeps polling. -/
theorem claim_C7 (onNew : Monitor → Except Exc Monitor)
    (events : List TickEvent) (h : ∀ e ∈ events, e = TickEvent.obs none) :
    get_last_modified none = 0 ∧
    watch onNew (initMonitor none) events = (0, initMonitor none, none) := by
  refine ⟨rfl, ?_⟩
  have hloop : watchLoop onNew { lastModified := 0, continueMonitoring := true } events
      = (0, { lastModified := 0, continueMonitoring := true }, none) :=
    watchLoop_unchanged onNew _ none events rfl rfl h
  unfold watch initMonitor
  simp [get_last_modified, hloop]

/-- Claim C7 (witness): concrete instance with the file absent for three
poll ticks. -/
theorem claim_C7_witness :
    get_last_modified none = 0 ∧
    watch zygoOnNew (initMonitor none)
      [TickEvent.obs none, TickEvent.obs none, TickEvent.obs none]
      = (0, initMonitor none, none) :=
  claim_C7 zygoOnNew _ (by decide)

/-- Claim C9: a `KeyboardInterrupt` raised at any point inside the polling
loop is caught by `watch`'s `try/except` and is never re-raised to the
caller — for every callback, monitor state and event trace, the pending
exception of `watch` is never `KeyboardInterrupt`; concretely, an
interrupt arriving on the very first tick makes `watch` return cleanly. -/
theorem claim_C9 :
    (∀ (onNew : Monitor → Except Exc Monitor) (m : Monitor)
        (events : List TickEvent),
      (watch onNew m events).2.2 ≠ some Exc.keyboardInterrupt) ∧
    watch zygoOnNew (initMonitor (some 5)) [TickEvent.interrupt] =
      (0, { lastModified := 5, continueMonitoring := true }, none) := by
  constructor
  · intro onNew m events
    unfold watch
    cases hr : (watchLoop onNew { m with continueMonitoring := true } events).2.2 with
    | none => simp [hr]
    | some e => cases e <;> simp [hr]
  · rfl

/-- Claim C1 amended (witness): concrete instance — stale file of mtime 5
unobtrusively watched for one tick; fresh signal of mtime 3 appearing
after construction consumed on its first tick. -/
theorem claim_C1_amended_witness :
    (watch zygoOnNew (initMonitor (some 5)) [TickEvent.obs (some 5)]).1 = 0 ∧
    (watch zygoOnNew (initMonitor (some 5))
        [TickEvent.obs (some 5)]).2.1.continueMonitoring = true ∧
    watch zygoOnNew (initMonitor none) (TickEvent.obs (some 3) :: [TickEvent.obs (some 3)]) =
      (1, { lastModified := 3, continueMonitoring := false }, none) :=
  claim_C1_amended 5 3 [TickEvent.obs (some 5)] [TickEvent.obs (some 3)]
    (by decide) (by decide)

/-- One parsed capture file, as returned by `parse_raw_datx`
(zygo.py lines 96-153): surface and intensity grids with their attribute
mappings, the derived mask, and the file-level attributes.  Grid, attribute
and mask contents are opaque to the consolidation logic, so they are type
parameters. -/
structure CaptureRecord (S A M : Type) where
  surface : S
  surface_attrs : A
  intensity : S
  intensity_attrs : A
  attrs : A
  mask : M
deriving DecidableEq, Repr

/-- The `consolidated` dictionary of six parallel lists built by
`read_many_raw_datx` (zygo.py lines 155-184). -/
structure Consolidated (S A M : Type) where
  surface : List S
  surface_attrs : List A
  intensity : List S
  intensity_attrs : List A
  attrs : List A
  mask : List M
deriving DecidableEq, Repr

/-- `read_many_raw_datx` (zygo.py lines 155-184): loop over the filenames,
parse each (parsing itself is the external h5py collaborator, passed in as
`parse`), and append every field of each parsed record to the
corresponding list. -/
def read_many_raw_datx {F S A M : Type} (parse : F → CaptureRecord S A M)
    (filenames : List F) : Consolidated S A M :=
  filenames.foldl
    (fun c f =>
      let fdict := parse f
      { surface := c.surface ++ [fdict.surface],
        surface_attrs := c.surface_attrs ++ [fdict.surface_attrs],
        intensity := c.intensity ++ [fdict.intensity],
        intensity_attrs := c.intensity_attrs ++ [fdict.intensity_attrs],
        attrs := c.attrs ++ [fdict.attrs],
        mask := c.mask ++ [fdict.mask] })
    { surface := [], surface_attrs := [], intensity := [],
      intensity_attrs := [], attrs := [], mask := [] }

/-- The consolidated HDF5 archive written by `write_dm_run_to_hdf5`
(automation.py lines 133-182): datasets `surface`, `intensity`,
`dm_inputs`, `mask` and the `attributes` group.  The per-dataset
`surface_attrs` / `intensity_attrs` arguments are accepted but not written
(the assignments are commented out in the source). -/
structure Archive (S A M D : Type) where
  surface : List S
  intensity : List S
  attributes : A
  dm_inputs : List D
  mask : M
deriving DecidableEq, Repr

/-- `write_dm_run_to_hdf5` (automation.py lines 133-182), minus the file
I/O: build the archive contents.  `surface_attrs` and `intensity_attrs`
are ignored exactly as in the source. -/
def write_dm_run_to_hdf5 {S A M D : Type} (surface_cube : List S)
    (surface_attrs : A) (intensity_cube : List S) (intensity_attrs : A)
    (all_attributes : A) (dm_inputs : List D) (mask : M) : Archive S A M D :=
  { surface := surface_cube, intensity := intensity_cube,
    attributes := all_attributes, dm_inputs := dm_inputs, mask := mask }

/-- The consolidation step of `zygo_dm_run` (automation.py lines 116-131):
read all capture files, then call `write_dm_run_to_hdf5` with
`alldata['surface_attrs'][0]`, `alldata['intensity_attrs'][0]`,
`alldata['attrs'][0]`, `alldata['mask'][0]`.  Indexing `[0]` into an empty
list raises `IndexError`, which is the only failure mode of this step. -/
def consolidateStep {F S A M D : Type} (parse : F → CaptureRecord S A M)
    (filenames : List F) (dm_inputs : List D) :
    Except Exc (Archive S A M D) :=
  let alldata := read_many_raw_datx parse filenames
  match alldata.surface_attrs.head?, alldata.intensity_attrs.head?,
      alldata.attrs.head?, alldata.mask.head? with
  | some sa0, some ia0, some a0, some m0 =>
      Except.ok (write_dm_run_to_hdf5 alldata.surface sa0 alldata.intensity
        ia0 a0 dm_inputs m0)
  | _, _, _, _ => Except.error Exc.indexError

/-- Unfolding of `read_many_raw_datx`: each field is the in-order map of
the corresponding field of the parsed records. -/
theorem read_many_raw_datx_fields {F S A M : Type}
    (parse : F → CaptureRecord S A M) (filenames : List F) :
    read_many_raw_datx parse filenames =
      { surface := filenames.map (fun f => (parse f).surface),
        surface_attrs := filenames.map (fun f => (parse f).surface_attrs),
        intensity := filenames.map (fun f => (parse f).intensity),
        intensity_attrs := filenames.map (fun f => (parse f).intensity_attrs),
        attrs := filenames.map (fun f => (parse f).attrs),
        mask := filenames.map (fun f => (parse f).mask) } := by
  have key : ∀ (fs : List F) (c : Consolidated S A M),
      fs.foldl
        (fun c f =>
          let fdict := parse f
          { surface := c.surface ++ [fdict.surface],
            surface_attrs := c.surface_attrs ++ [fdict.surface_attrs],
            intensity := c.intensity ++ [fdict.intensity],
            intensity_attrs := c.intensity_attrs ++ [fdict.intensity_attrs],
            attrs := c.attrs ++ [fdict.attrs],
            mask := c.mask ++ [fdict.mask] }) c =
      { surface := c.surface ++ fs.map (fun f => (parse f).surface),
        surface_attrs := c.surface_attrs ++ fs.map (fun f => (parse f).surface_attrs),
        intensity := c.intensity ++ fs.map (fun f => (parse f).intensity),
        intensity_attrs := c.intensity_attrs ++ fs.map (fun f => (parse f).intensity_attrs),
        attrs := c.attrs ++ fs.map (fun f => (parse f).attrs),
        mask := c.mask ++ fs.map (fun f => (parse f).mask) } := by
    intro fs
    induction fs with
    | nil => intro c; simp
    | cons f rest ih =>
      intro c
      simp only [List.foldl_cons, List.map_cons]
      rw [ih]
      simp
  unfold read_many_raw_datx
  rw [key]
  simp

/-- The consolidation error taxonomy named by the specification (§4.5);
it does not appear anywhere in the source. -/
inductive ConsolidationError where
  | EmptyRun
  | CountMismatch
deriving DecidableEq, Repr

/-- Modelled from the spec: `Consolidator.consolidate` as §4.5 words it —
fail with `EmptyRun` on zero records, with `CountMismatch` when the parsed
record count disagrees with the supplied capture-path count, and otherwise
write the archive from record 0's attributes and mask with order-preserving
stacks.  This definition exists only to compare the spec's wording with the
source's `consolidateStep`; the source code carries no such error
taxonomy. -/
def spec_consolidate {S A M D : Type} (records : List (CaptureRecord S A M))
    (capturePathCount : Nat) (dm_inputs : List D) :
    Except ConsolidationError (Archive S A M D) :=
  match records with
  | [] => Except.error ConsolidationError.EmptyRun
  | r0 :: _ =>
    if records.length ≠ capturePathCount then
      Except.error ConsolidationError.CountMismatch
    else
      Except.ok
        { surface := records.map (fun r => r.surface),
          intensity := records.map (fun r => r.intensity),
          attributes := r0.attrs, dm_inputs := dm_inputs, mask := r0.mask }

/-- Common observations of a consolidation outcome, letting the source's
failure mode be compared with the spec's error taxonomy. -/
inductive ConsObs where
  | ok
  | emptyRun
  | countMismatch
  | pyError (e : Exc)
deriving DecidableEq, Repr

/-- Observation of the source-modelled consolidation step. -/
def obsOfCode {S A M D : Type} : Except Exc (Archive S A M D) → ConsObs
  | Except.ok _ => ConsObs.ok
  | Except.error e => ConsObs.pyError e

/-- Observation of the spec-worded consolidation. -/
def obsOfSpec {S A M D : Type} :
    Except ConsolidationError (Archive S A M D) → ConsObs
  | Except.ok _ => ConsObs.ok
  | Except.error ConsolidationError.EmptyRun => ConsObs.emptyRun
  | Except.error ConsolidationError.CountMismatch => ConsObs.countMismatch

/-- Claim C3 (counterexample): called with zero capture records the
source's consolidation step fails with a Python `IndexError` (indexing
`[0]` into the empty attribute list), not with an `EmptyRun`-classified
error as the spec's wording (`spec_consolidate`) prescribes: the two
observations differ on the empty input. -/
theorem claim_C3_counterexample :
    obsOfCode (consolidateStep (id : CaptureRecord Nat Nat Nat → CaptureRecord Nat Nat Nat)
        [] ([] : List Nat)) = ConsObs.pyError Exc.indexError ∧
    obsOfSpec (spec_consolidate ([] : List (CaptureRecord Nat Nat Nat)) 0 ([] : List Nat))
      = ConsObs.emptyRun ∧
    ConsObs.pyError Exc.indexError ≠ ConsObs.emptyRun :=
  ⟨rfl, rfl, by decide⟩

/-- Claim C3 (amended): consolidation called with zero capture records does
fail, but with an index-out-of-range error when record 0's attributes are
fetched, not with a dedicated `EmptyRun` error; and the number of parsed
records always equals the number of capture paths supplied — the loop
appends exactly one record per path — so the count-mismatch condition can
never arise and the code performs no `CountMismatch` check. -/
theorem claim_C3_amended {F S A M D : Type} (parse : F → CaptureRecord S A M)
    (filenames : List F) (dm_inputs : List D) :
    (read_many_raw_datx parse filenames).attrs.length = filenames.length ∧
    (read_many_raw_datx parse filenames).surface.length = filenames.length ∧
    consolidateStep parse ([] : List F) dm_inputs = Except.error Exc.indexError := by
  refine ⟨?_, ?_, rfl⟩
  · rw [read_many_raw_datx_fields]
    exact List.length_map filenames _
  · rw [read_many_raw_datx_fields]
    exact List.length_map filenames _

/-- Claim C4: consolidating any non-empty ordered sequence of capture
records — with arbitrary, mutually heterogeneous attribute mappings —
succeeds, and the archive's attribute mapping and mask are exactly record
0's, regardless of records 1..K-1, while the surface, intensity, and
dm-input stacks preserve input order. -/
theorem claim_C4 {S A M D : Type} (records : List (CaptureRecord S A M))
    (dm_inputs : List D) (h : records ≠ []) :
    ∃ a : Archive S A M D,
      consolidateStep id records dm_inputs = Except.ok a ∧
      a.attributes = (records.head h).attrs ∧
      a.mask = (records.head h).mask ∧
      a.surface = records.map (fun r => r.surface) ∧
      a.intensity = records.map (fun r => r.intensity) ∧
      a.dm_inputs = dm_inputs := by
  cases records with
  | nil => exact absurd rfl h
  | cons r0 rest =>
    refine ⟨{ surface := (r0 :: rest).map (fun r => r.surface),
              intensity := (r0 :: rest).map (fun r => r.intensity),
              attributes := r0.attrs, dm_inputs := dm_inputs,
              mask := r0.mask }, ?_, rfl, rfl, rfl, rfl, rfl⟩
    unfold consolidateStep
    rw [read_many_raw_datx_fields]
    simp [write_dm_run_to_hdf5]

/-- Claim C4 (witness): two records with heterogeneous attribute mappings
(record 0 carries attribute dictionary [("wavelength", 5)], record 1 an
empty one and a different mask); the archive takes record 0's attributes
and mask and keeps the stacks in order. -/
theorem claim_C4_witness :
    ∃ a : Archive Nat (List (String × Nat)) Nat Nat,
      consolidateStep id
        [{ surface := 10, surface_attrs := [("u", 1)], intensity := 20,
           intensity_attrs := [("v", 2)], attrs := [("wavelength", 5)], mask := 7 },
         { surface := 11, surface_attrs := [], intensity := 21,
           intensity_attrs := [], attrs := [], mask := 8 }] [100, 200] = Except.ok a ∧
      a.attributes = [("wavelength", 5)] ∧
      a.mask = 7 ∧
      a.surface = [10, 11] ∧
      a.intensity = [20, 21] ∧
      a.dm_inputs = [100, 200] :=
  claim_C4 _ _ (List.cons_ne_nil _ _)

/-- Python's `str.upper`, used by the `dmtype` check of `zygo_dm_run`
(automation.py line 66). -/
def pyUpper (s : String) : String := String.mk (s.data.map Char.toUpper)

/-- The keyword parameters accepted by the imported `zygo.capture_frame`
(zygo.py line 22: `def capture_frame(filename=None)`). -/
def capture_frame_params : List String := ["filename"]

/-- The keyword arguments `zygo_dm_run` passes to `capture_frame`
(automation.py lines 106-107: `capture_frame(filename=..., mtype=mtype)`). -/
def zygo_dm_run_capture_kwargs : List String := ["filename", "mtype"]

/-- The capture step of `zygo_dm_run`: Python raises `TypeError` at call
time when a keyword argument is passed that the callee's signature does
not accept, before the function body runs. -/
def capture_step : Except Exc Unit :=
  if zygo_dm_run_capture_kwargs.all (fun k => capture_frame_params.contains k) then
    Except.ok ()
  else
    Except.error Exc.typeError

/-- The observable outcome of one `zygo_dm_run` call: how many ready-signal
round trips (`zm.watch` watch-and-consume cycles) occurred, the indices of
frame files written into the output directory, the consolidated archive if
one was produced, and the exception the call raised, if any. -/
structure RunOutcome (S A M D : Type) where
  roundTrips : Nat
  frames : List Nat
  archive : Option (Archive S A M D)
  error : Option Exc
deriving DecidableEq, Repr

/-- The `for idx, inputs in enumerate(dm_inputs)` loop of `zygo_dm_run`
(automation.py lines 76-114).  Per state: the command artifact is written
to the rendezvous directory, `zm.watch(0.01)` blocks until the ready
signal is consumed (one round trip, counted here; `zygo_watch_fires_at_most_once`
and claim C2's last conjunct show one `watch` call consumes exactly one
signal), then — unless `dry_run` — `capture_frame` is invoked to write
`frame_{idx:05d}.datx`; the transient input file is then removed.  An
exception aborts the loop and propagates. -/
def runLoop {D : Type} (dry_run : Bool) : List D → Nat → Nat × List Nat × Option Exc
  | [], _ => (0, [], none)
  | _ :: rest, idx =>
    if dry_run then
      match runLoop dry_run rest (idx + 1) with
      | (n, fs, e) => (n + 1, fs, e)
    else
      match capture_step with
      | Except.error e => (1, [], some e)
      | Except.ok _ =>
        match runLoop dry_run rest (idx + 1) with
        | (n, fs, e) => (n + 1, idx :: fs, e)

/-- `zygo_dm_run` (automation.py lines 18-131): validate `dmtype`, fail the
`assert not os.path.exists(outname)` precondition unless `dry_run` or
`clobber`, run the state loop, and — when `consolidate` — run the
consolidation step over the frame files the loop wrote (in a dry run the
output directory holds none).  `parse` is the external h5py reader applied
to each frame file. -/
def zygo_dm_run {S A M D : Type} (parse : Nat → CaptureRecord S A M)
    (dm_inputs : List D) (dmtype : String)
    (dry_run consolidate clobber outnameExists : Bool) : RunOutcome S A M D :=
  if (["BMC", "IRISAO", "ALPAO"].contains (pyUpper dmtype)) = false then
    { roundTrips := 0, frames := [], archive := none, error := some Exc.valueError }
  else if (!(dry_run || clobber) && outnameExists) = true then
    { roundTrips := 0, frames := [], archive := none, error := some Exc.assertionError }
  else
    match runLoop dry_run dm_inputs 0 with
    | (n, frames, some exc) =>
      { roundTrips := n, frames := frames, archive := none, error := some exc }
    | (n, frames, none) =>
      if consolidate then
        match consolidateStep parse frames dm_inputs with
        | Except.ok a =>
          { roundTrips := n, frames := frames, archive := some a, error := none }
        | Except.error exc =>
          { roundTrips := n, frames := frames, archive := none, error := some exc }
      else
        { roundTrips := n, frames := frames, archive := none, error := none }

/-- In a dry run the loop completes one watch-and-consume round trip per
state, writes no frames, and raises nothing. -/
theorem runLoop_dry {D : Type} (dm_inputs : List D) (idx : Nat) :
    runLoop true dm_inputs idx = (dm_inputs.length, [], none) := by
  induction dm_inputs generalizing idx with
  | nil => rfl
  | cons x rest ih =>
    simp only [runLoop, if_true, ih (idx + 1), List.length_cons]

/-- Polling an absent file changes nothing for a watcher whose baseline is
the absent sentinel: a prefix of absent observations can be dropped. -/
theorem watchLoop_absent_lead (onNew : Monitor → Except Exc Monitor)
    (k : Nat) (es : List TickEvent) :
    watchLoop onNew { lastModified := 0, continueMonitoring := true }
      (List.replicate k (TickEvent.obs none) ++ es) =
    watchLoop onNew { lastModified := 0, continueMonitoring := true } es := by
  induction k with
  | zero => rfl
  | succ n ih =>
    have hcond : ¬ (get_last_modified none ≠
        ({ lastModified := 0, continueMonitoring := true } : Monitor).lastModified) := by
      simp [get_last_modified]
    simp only [List.replicate_succ, List.cons_append, watchLoop, if_true, if_neg hcond]
    exact ih

/-- A ready signal first appearing (with a real mtime σ ≠ 0) at a poll
tick of a `ZygoMonitor` whose baseline is the absent sentinel is consumed
on that tick: the callback fires exactly once and the loop stops. -/
theorem watchLoop_fresh_signal (σ : Nat) (rest : List TickEvent) (hσ : σ ≠ 0) :
    watchLoop zygoOnNew { lastModified := 0, continueMonitoring := true }
      (TickEvent.obs (some σ) :: rest) =
      (1, { lastModified := σ, continueMonitoring := false }, none) := by
  have hcond : get_last_modified (some σ) ≠
      ({ lastModified := 0, continueMonitoring := true } : Monitor).lastModified := by
    simpa [get_last_modified] using hσ
  simp only [watchLoop, if_pos hcond, zygoOnNew, Option.isSome_some, if_true]
  rw [watchLoop_stopped zygoOnNew _ rest rfl]
  simp [get_last_modified]

/-- Claim C2: a run with `dry_run=true` over any command sequence performs
exactly one ready-signal round trip per state (`roundTrips` counts the
`zm.watch` watch-and-consume cycles, and — last conjunct — one such cycle
consumes exactly one ready signal no matter how many polls of absence
precede it), writes zero frame files into the output directory, and
produces no `ConsolidatedArchive` (whether consolidation is requested or
not: with `consolidate=true` the post-loop consolidation finds no frames
and dies on `IndexError` before any archive is written). -/
theorem claim_C2 {S A M D : Type} (parse : Nat → CaptureRecord S A M)
    (dm_inputs : List D) (dmtype : String)
    (consolidate clobber outnameExists : Bool)
    (hdt : (["BMC", "IRISAO", "ALPAO"].contains (pyUpper dmtype)) = true) :
    (zygo_dm_run parse dm_inputs dmtype true consolidate clobber
      outnameExists).roundTrips = dm_inputs.length ∧
    (zygo_dm_run parse dm_inputs dmtype true consolidate clobber
      outnameExists).frames = [] ∧
    (zygo_dm_run parse dm_inputs dmtype true consolidate clobber
      outnameExists).archive = none ∧
    ∀ (k σ : Nat), σ ≠ 0 →
      watch zygoOnNew (initMonitor none)
        (List.replicate k (TickEvent.obs none) ++ [TickEvent.obs (some σ)]) =
        (1, { lastModified := σ, continueMonitoring := false }, none) := by
  have hempty : consolidateStep parse ([] : List Nat) dm_inputs
      = Except.error Exc.indexError := rfl
  have hval : zygo_dm_run parse dm_inputs dmtype true consolidate clobber outnameExists =
      if consolidate then
        { roundTrips := dm_inputs.length, frames := [], archive := none,
          error := some Exc.indexError }
      else
        { roundTrips := dm_inputs.length, frames := [], archive := none,
          error := none } := by
    unfold zygo_dm_run
    rw [hdt]
    simp only [Bool.true_or, Bool.not_true, Bool.false_and, runLoop_dry, hempty]
    cases consolidate <;> simp [hempty]
  refine ⟨?_, ?_, ?_, ?_⟩
  · rw [hval]; cases consolidate <;> rfl
  · rw [hval]; cases consolidate <;> rfl
  · rw [hval]; cases consolidate <;> rfl
  · intro k σ hσ
    unfold watch initMonitor
    simp only [get_last_modified]
    rw [watchLoop_absent_lead, watchLoop_fresh_signal σ _ hσ]

/-- A trivial concrete capture-file parser used by witnesses. -/
def trivParse : Nat → CaptureRecord Nat Nat Nat :=
  fun n => { surface := n, surface_attrs := n, intensity := n,
             intensity_attrs := n, attrs := n, mask := n }

/-- Claim C2 (witness): a three-state dry run with a valid `dmtype` and
consolidation requested does three round trips, writes no frames and
yields no archive; a watch preceded by two polls of absence still consumes
exactly one ready signal. -/
theorem claim_C2_witness :
    (zygo_dm_run trivParse ([10, 20, 30] : List Nat) "bmc" true true false
      false).roundTrips = 3 ∧
    (zygo_dm_run trivParse ([10, 20, 30] : List Nat) "bmc" true true false
      false).frames = [] ∧
    (zygo_dm_run trivParse ([10, 20, 30] : List Nat) "bmc" true true false
      false).archive = none ∧
    watch zygoOnNew (initMonitor none)
      (List.replicate 2 (TickEvent.obs none) ++ [TickEvent.obs (some 3)]) =
      (1, { lastModified := 3, continueMonitoring := false }, none) := by
  have h := claim_C2 trivParse ([10, 20, 30] : List Nat) "bmc" true false false rfl
  exact ⟨h.1, h.2.1, h.2.2.1, h.2.2.2 2 3 (by decide)⟩

/-- Claim C10: any run with `dry_run=false` dies at the very first capture
step with a `TypeError` — `zygo_dm_run` passes the keyword argument
`mtype` to `capture_frame`, but the imported `zygo.capture_frame` accepts
only `filename` — so after exactly one ready-signal round trip the run
aborts having written no frames and no archive. -/
theorem claim_C10 {S A M D : Type} (parse : Nat → CaptureRecord S A M)
    (dm_inputs : List D) (dmtype : String)
    (consolidate clobber outnameExists : Bool)
    (hne : dm_inputs ≠ [])
    (hdt : (["BMC", "IRISAO", "ALPAO"].contains (pyUpper dmtype)) = true)
    (hdir : (!clobber && outnameExists) = false) :
    zygo_dm_run parse dm_inputs dmtype false consolidate clobber outnameExists =
      { roundTrips := 1, frames := [], archive := none,
        error := some Exc.typeError } ∧
    capture_step = Except.error Exc.typeError ∧
    "mtype" ∈ zygo_dm_run_capture_kwargs ∧ "mtype" ∉ capture_frame_params := by
  have hcap : capture_step = Except.error Exc.typeError := rfl
  refine ⟨?_, hcap, by decide, by decide⟩
  cases dm_inputs with
  | nil => exact absurd rfl hne
  | cons x rest =>
    have hloop : runLoop false (x :: rest) 0 = (1, [], some Exc.typeError) := by
      simp only [runLoop, if_neg (Bool.false_ne_true), hcap]
    unfold zygo_dm_run
    rw [hdt]
    simp only [Bool.false_or, hdir, hloop]
    simp

/-- Claim C10 (witness): a single-state non-dry run with valid settings
aborts with `TypeError` after one round trip and zero frames. -/
theorem claim_C10_witness :
    zygo_dm_run trivParse ([5] : List Nat) "BMC" false true false false =
      { roundTrips := 1, frames := [], archive := none,
        error := some Exc.typeError } ∧
    capture_step = Except.error Exc.typeError ∧
    "mtype" ∈ zygo_dm_run_capture_kwargs ∧ "mtype" ∉ capture_frame_params :=
  claim_C10 trivParse ([5] : List Nat) "BMC" true false false
    (by decide) rfl rfl

/-- `load_channel` (bmc.py lines 44-72) applied to the contents of the
helper-script directory `/home/lab/src/scripts`: if a file of the same
basename is already present there, raise (`raise Exception('The file ...
already exists ...')`, modelled as `fileExistsError`); otherwise copy the
FITS file in, run the `dmloadch` shell helper, and delete the copy, so on
success the directory contents are net unchanged. -/
def load_channel (script_dir : List String) (basename : String) :
    Except Exc (List String) :=
  if script_dir.contains basename then
    Except.error Exc.fileExistsError
  else
    Except.ok script_dir

/-- The rendezvous (network) directory as the Responder sees it: whether
the `dm_ready` ready-signal file exists. -/
structure NetworkDir where
  dmReady : Bool
deriving DecidableEq, Repr

/-- `BMC1KMonitor.on_new_data` (automation.py lines 286-297): load the
detected command file onto DM channel 0 via `load_channel`, and only then
create the empty `dm_ready` file.  A raise inside `load_channel`
propagates and the ready-signal line never executes. -/
def bmc1k_on_new_data (script_dir : List String) (nd : NetworkDir)
    (basename : String) : Except Exc Unit × List String × NetworkDir :=
  match load_channel script_dir basename with
  | Except.error e => (Except.error e, script_dir, nd)
  | Except.ok sd => (Except.ok (), sd, { nd with dmReady := true })

/-- Claim C5: when applying the detected command to the DM hardware fails
(`load_channel` raises), the error is propagated out of the Responder's
`on_new_data` — and hence, since `watch` catches only
`KeyboardInterrupt`, out of the Responder's `watch` call to its caller
(second conjunct: a watch whose callback raises on a detected command file
surfaces that same exception) — and the rendezvous directory is left
untouched: no `dm_ready` file is created. -/
theorem claim_C5 (script_dir : List String) (nd : NetworkDir)
    (basename : String) (e : Exc)
    (h : load_channel script_dir basename = Except.error e) :
    bmc1k_on_new_data script_dir nd basename = (Except.error e, script_dir, nd) ∧
    (watch (fun _ => Except.error e) (initMonitor none)
      [TickEvent.obs (some 1)]).2.2 = some e := by
  have he : e = Exc.fileExistsError := by
    unfold load_channel at h
    split at h
    · exact (Except.error.inj h).symm
    · simp at h
  constructor
  · unfold bmc1k_on_new_data
    rw [h]
  · subst he
    rfl

/-- Claim C5 (witness): the command file's basename already sits in the
script directory, so `load_channel` raises; the exception propagates and
`dm_ready` stays absent. -/
theorem claim_C5_witness :
    bmc1k_on_new_data ["dm_input.fits"] { dmReady := false } "dm_input.fits" =
      (Except.error Exc.fileExistsError, ["dm_input.fits"],
        { dmReady := false }) ∧
    (watch (fun _ => Except.error Exc.fileExistsError) (initMonitor none)
      [TickEvent.obs (some 1)]).2.2 = some Exc.fileExistsError :=
  claim_C5 ["dm_input.fits"] { dmReady := false } "dm_input.fits"
    Exc.fileExistsError rfl

/-- `write_ptt_command` (irisao.py lines 165-168): write the PTT list as
space-delimited csv rows, one mirror segment per line.  The csv module's
per-field formatting of a numeric value into a string is the external
stdlib collaborator, passed in as `enc`; the file content is modelled
structurally as its list of lines, each a list of fields. -/
def write_ptt_command {α : Type} (enc : α → String)
    (pttlist : List (List α)) : List (List String) :=
  pttlist.map (fun row => row.map enc)

/-- `read_ptt_command` (irisao.py lines 170-174): read the file back with
`quoting=csv.QUOTE_NONNUMERIC`, which converts every unquoted field of a
row numerically (the external stdlib parse, `dec`; a field it cannot parse
fails the read), then keep only the first three fields of each line
(`line[:3]`, guarding against a trailing delimiter). -/
def read_ptt_command {α : Type} (dec : String → Option α)
    (contents : List (List String)) : Option (List (List α)) :=
  contents.mapM (fun line => (line.mapM dec).map (fun row => row.take 3))

/-- `write_fits` (bmc.py lines 224-245) and `alpao.command_to_fits`
(alpao.py lines 84-102): cast the command data to the driver dtype
(float32 for BMC displacement commands, float64 for ALPAO) and store it in
the FITS primary HDU; the stored array, read back by the Responder, is the
elementwise cast of the input.  The dtype cast is the external NumPy
collaborator. -/
def write_fits {β : Type} (cast_dtype : β → β) (data : List β) : List β :=
  data.map cast_dtype

/-- Claim C8: for every supported driver-kind encoding, serialize followed
by re-parse reproduces the actuation vector up to the numeric tolerance of
the underlying field codec.  For the segmented-PTT text artifact,
`read_ptt_command` after `write_ptt_command` is the identity on any
nsegment-by-3 piston/tip/tilt list whenever the stdlib field codec
round-trips (Python's float repr does, exactly); for the FITS grid
artifacts, the stored vector is elementwise `near` the input whenever the
dtype cast is within the declared floating-point tolerance. -/
theorem claim_C8 {α β : Type} (enc : α → String) (dec : String → Option α)
    (hcodec : ∀ x, dec (enc x) = some x)
    (pttlist : List (List α)) (hrow : ∀ r ∈ pttlist, r.length = 3)
    (cast_dtype : β → β) (near : β → β → Prop)
    (hcast : ∀ x, near (cast_dtype x) x) (data : List β) :
    read_ptt_command dec (write_ptt_command enc pttlist) = some pttlist ∧
    List.Forall₂ near (write_fits cast_dtype data) data := by
  constructor
  · have hrowrt : ∀ r : List α, (r.map enc).mapM dec = some r := by
      intro r
      induction r with
      | nil => rfl
      | cons a as ih =>
        rw [List.map_cons, List.mapM_cons, hcodec a, ih]
        rfl
    unfold read_ptt_command write_ptt_command
    induction pttlist with
    | nil => rfl
    | cons r rest ih =>
      have hr : r.length = 3 := hrow r (List.mem_cons_self r rest)
      have hrest : ∀ x ∈ rest, x.length = 3 :=
        fun x hx => hrow x (List.mem_cons_of_mem _ hx)
      have htake : r.take 3 = r := List.take_of_length_le (le_of_eq hr)
      have hmap : Option.map (fun row => List.take 3 row) (some r) = some r := by
        simp [htake]
      simp only [List.map_cons, List.mapM_cons, hrowrt r, ih hrest, hmap]
      rfl
  · unfold write_fits
    induction data with
    | nil => exact List.Forall₂.nil
    | cons x xs ih => exact List.Forall₂.cons (hcast x) ih

/-- Claim C8 (witness): concrete instantiation — field codec taken as the
identity injection on already-formatted fields (`enc = id`,
`dec = some`, which round-trips exactly), one 3-entry PTT row; FITS cast
taken as the identity with `near` as equality on a 2-entry vector. -/
theorem claim_C8_witness :
    read_ptt_command (some : String → Option String)
      (write_ptt_command id [["1.5", "0.0", "2.25"]]) =
      some [["1.5", "0.0", "2.25"]] ∧
    List.Forall₂ (Eq (α := Nat)) (write_fits id [3, 4]) [3, 4] :=
  claim_C8 id some (fun _ => rfl) [["1.5", "0.0", "2.25"]] (by decide)
    id Eq (fun _ => rfl) [3, 4]

/-- Claim C9 (witness): concrete instance — an interrupt on the first poll
tick is not re-raised by `watch`. -/
theorem claim_C9_witness :
    (watch zygoOnNew (initMonitor (some 5)) [TickEvent.interrupt]).2.2 ≠
      some Exc.keyboardInterrupt :=
  claim_C9.1 zygoOnNew (initMonitor (some 5)) [TickEvent.interrupt]

/-- Claim C3 amended (witness): two capture paths parse into two records;
consolidation of zero paths fails with `IndexError`. -/
theorem claim_C3_amended_witness :
    (read_many_raw_datx trivParse ([1, 2] : List Nat)).attrs.length = 2 ∧
    (read_many_raw_datx trivParse ([1, 2] : List Nat)).surface.length = 2 ∧
    consolidateStep trivParse ([] : List Nat) ([] : List Nat) =
      Except.error Exc.indexError :=
  claim_C3_amended trivParse ([1, 2] : List Nat) ([] : List Nat)
